import Mathlib

/-
Verification of the pycozo `Client` (src/pycozo/client.py) against its
specification.  The Python code is shallowly embedded: parsed JSON values
become the inductive `JVal`, Python exceptions become the `PyError` sum
carried in `Except`, the external collaborators (the native `cozo_embedded`
handle and the HTTP transport) become oracle records whose methods return
the decoded JSON of the collaborator's reply, and Python attribute lookup on
`self` is modelled by `Option`-valued fields where `none` means the
attribute was never assigned (so reading it raises `AttributeError`).
-/

/-- A parsed JSON value, the shape of every collaborator response and of the
`params` / payload arguments.  (Floats do not occur in any claim and are
omitted; numbers are modelled by `int`.) -/
inductive JVal where
  | null : JVal
  | bool (b : Bool) : JVal
  | int (n : Int) : JVal
  | str (s : String) : JVal
  | arr (xs : List JVal) : JVal
  | obj (kvs : List (String × JVal)) : JVal

/-- First-match association lookup, the behaviour of a Python dict whose
keys are unique. -/
def assocFind : List (String × JVal) → String → Option JVal
  | [], _ => none
  | (k', v) :: rest, k => if k' = k then some v else assocFind rest k

/-- Python truthiness (`bool(x)`) of a parsed JSON value. -/
def JVal.truthy : JVal → Bool
  | .null => false
  | .bool b => b
  | .int n => n != 0
  | .str s => s != ""
  | .arr xs => !xs.isEmpty
  | .obj kvs => !kvs.isEmpty

/-- Key lookup on a JSON object; `none` when the key is absent or the value
is not an object. -/
def JVal.lookup : JVal → String → Option JVal
  | .obj kvs, k => assocFind kvs k
  | _, _ => none

/-- Python `d.get(k)`: the value when present, `None` otherwise. -/
def JVal.get (v : JVal) (k : String) : JVal :=
  (v.lookup k).getD .null

/-- The Python exceptions the client can raise, as a sum type carried in
`Except`. -/
inductive PyError where
  | attributeError (name : String) : PyError
  | keyError (key : String) : PyError
  | typeError (msg : String) : PyError
  | queryException (resp : JVal) : PyError
  | runtimeError (msg : JVal) : PyError

/-- Python subscript `v[k]`: the value when `v` is a dict containing `k`,
`KeyError` when the key is missing, `TypeError` on a non-dict. -/
def JVal.subscript (v : JVal) (k : String) : Except PyError JVal :=
  match v with
  | .obj kvs =>
    match assocFind kvs k with
    | some x => .ok x
    | none => .error (.keyError k)
  | _ => .error (.typeError "object is not subscriptable")

/-- Lowercase hex digit, for JSON control-character escapes. -/
def hexDigitLower (n : Nat) : Char :=
  if n < 10 then Char.ofNat (48 + n) else Char.ofNat (87 + n)

/-- JSON string escaping as performed by `json.dumps` (with
`ensure_ascii=False`, the mode used for all payloads the claims touch). -/
def jsonEscapeChar (c : Char) : String :=
  if c = '"' then "\\\""
  else if c = '\\' then "\\\\"
  else if c = '\n' then "\\n"
  else if c = '\t' then "\\t"
  else if c = '\r' then "\\r"
  else if c.toNat < 32 then
    "\\u00" ++ String.singleton (hexDigitLower (c.toNat / 16))
      ++ String.singleton (hexDigitLower (c.toNat % 16))
  else String.singleton c

def jsonEscape (s : String) : String :=
  String.join (s.toList.map jsonEscapeChar)

mutual

/-- `json.dumps` on a parsed JSON value (default separators). -/
def JVal.dumps : JVal → String
  | .null => "null"
  | .bool true => "true"
  | .bool false => "false"
  | .int n => toString n
  | .str s => "\"" ++ jsonEscape s ++ "\""
  | .arr xs => "[" ++ dumpsArr xs ++ "]"
  | .obj kvs => "\x7b" ++ dumpsObj kvs ++ "\x7d"

def dumpsArr : List JVal → String
  | [] => ""
  | [x] => JVal.dumps x
  | x :: y :: rest => JVal.dumps x ++ ", " ++ dumpsArr (y :: rest)

def dumpsObj : List (String × JVal) → String
  | [] => ""
  | [(k, v)] => "\"" ++ jsonEscape k ++ "\": " ++ JVal.dumps v
  | (k, v) :: p :: rest =>
    "\"" ++ jsonEscape k ++ "\": " ++ JVal.dumps v ++ ", " ++ dumpsObj (p :: rest)

end

mutual

/-- Python `str()` / `repr()` rendering of a parsed JSON value (the dict
repr with single-quoted strings; quote escaping inside strings is elided —
this rendering is only the last-resort fallback of `QueryException`). -/
def pyReprJ : JVal → String
  | .null => "None"
  | .bool true => "True"
  | .bool false => "False"
  | .int n => toString n
  | .str s => "'" ++ s ++ "'"
  | .arr xs => "[" ++ pyReprArr xs ++ "]"
  | .obj kvs => "\x7b" ++ pyReprObj kvs ++ "\x7d"

def pyReprArr : List JVal → String
  | [] => ""
  | [x] => pyReprJ x
  | x :: y :: rest => pyReprJ x ++ ", " ++ pyReprArr (y :: rest)

def pyReprObj : List (String × JVal) → String
  | [] => ""
  | [(k, v)] => "'" ++ k ++ "': " ++ pyReprJ v
  | (k, v) :: p :: rest =>
    "'" ++ k ++ "': " ++ pyReprJ v ++ ", " ++ pyReprObj (p :: rest)

end

/-- The native `CozoDbPy` object acquired by the embedded branch of
`Client.__init__`.  It records its constructor arguments and the number of
times its native `close()` entry point has been invoked (the externally
observable release effect). -/
structure EmbHandle where
  engine : String
  path : String
  optsJson : String
  closeCalls : Nat
deriving Repr, DecidableEq

/-- The attribute state of a `Client` instance.  A field of value `none`
(outer `none` for `embedded`) means the attribute was never assigned, so
reading it raises `AttributeError` — `Client.__init__` assigns `host`/`auth`
only in the `'http'` branch and `embedded` only in the other branch.
`embedded`'s inner `Option` is the Python value itself (a handle, or `None`);
in this source the inner value is always a handle when assigned.
`pandas` is `true` exactly when the dataframe capability was resolved
(`self.pandas` is always assigned, line 35). -/
structure Client where
  pandas : Bool
  host : Option String
  auth : Option String
  embedded : Option (Option EmbHandle)
deriving Repr, DecidableEq

/-- The `options` constructor argument: Python `None`, the documented dict
form, or some other object exposing `host`/`auth` attributes (the only kind
of value on which `options.host` attribute access can succeed). -/
inductive PyOpts where
  | none_ : PyOpts
  | dict (kvs : List (String × JVal)) : PyOpts
  | attrObj (host auth : String) : PyOpts

/-- Python attribute access `options.<k>` restricted to string-valued
attributes: dicts and `None` expose no `host`/`auth` attributes. -/
def PyOpts.getattrS (o : PyOpts) (k : String) : Except PyError String :=
  match o with
  | .attrObj h a =>
    if k = "host" then .ok h
    else if k = "auth" then .ok a
    else .error (.attributeError k)
  | _ => .error (.attributeError k)

/-- Python truthiness of the `options` argument (for `options or {}`). -/
def PyOpts.truthy : PyOpts → Bool
  | .none_ => false
  | .dict kvs => !kvs.isEmpty
  | .attrObj _ _ => true

/-- `json.dumps(options)`: serializable for `None` and dicts, `TypeError`
for an arbitrary attribute object. -/
def PyOpts.toJsonStr : PyOpts → Except PyError String
  | .none_ => .ok "null"
  | .dict kvs => .ok (JVal.dumps (.obj kvs))
  | .attrObj _ _ => .error (.typeError "Object is not JSON serializable")

/-- Oracle for the native collaborator: each method yields the decoded JSON
value (`json.loads` of the returned string) of the corresponding
`cozo_embedded` entry point for the given serialized arguments. -/
structure Native where
  run_query : String → String → JVal
  export_relations : String → JVal
  import_relations : String → JVal
  backup : String → JVal
  restore : String → JVal
  import_from_backup : String → JVal

/-- Oracle for the HTTP transport: each method yields the decoded JSON body
(`r.json()`) of the response to the given request (url, headers, JSON
body). -/
structure Http where
  post : String → List (String × String) → JVal → JVal
  get : String → List (String × String) → JVal
  put : String → List (String × String) → JVal → JVal

/-- A collaborator whose every reply decodes to the fixed value `res`. -/
def constNative (res : JVal) : Native :=
  { run_query := fun _ _ => res
    export_relations := fun _ => res
    import_relations := fun _ => res
    backup := fun _ => res
    restore := fun _ => res
    import_from_backup := fun _ => res }

/-- An HTTP transport whose every response body decodes to `res`. -/
def constHttp (res : JVal) : Http :=
  { post := fun _ _ _ => res
    get := fun _ _ => res
    put := fun _ _ _ => res }

/-- `QueryException.__str__`: `self.resp.get('message') or str(self.resp)`. -/
def QueryException.pyStr (resp : JVal) : JVal :=
  let m := resp.get "message"
  if m.truthy then m else .str (pyReprJ resp)

/-- `QueryException.__repr__`:
`self.resp.get('display') or self.resp.get('message') or str(self.resp)`. -/
def QueryException.pyRepr (resp : JVal) : JVal :=
  let d := resp.get "display"
  if d.truthy then d else QueryException.pyStr resp

/-- `Client.__init__` up to the end of the engine branch (lines 35-41):
`self.pandas = None`; for `'http'` read `options.host` and `options.auth`;
otherwise acquire `CozoDbPy(engine, path, json.dumps(options or \x7b\x7d))`. -/
def Client.initBase (engine path : String) (options : PyOpts) :
    Except PyError Client :=
  if engine = "http" then
    match options.getattrS "host" with
    | .error e => .error e
    | .ok h =>
      match options.getattrS "auth" with
      | .error e => .error e
      | .ok a => .ok { pandas := false, host := some h, auth := some a, embedded := none }
  else
    match (if options.truthy then options else .dict []).toJsonStr with
    | .error e => .error e
    | .ok optsJson =>
      .ok { pandas := false, host := none, auth := none,
            embedded := some (some { engine := engine, path := path,
                                     optsJson := optsJson, closeCalls := 0 }) }

/-- `Client.__init__` (lines 16-49).  `pandasAvailable` models whether
`import pandas` succeeds; the returned `Bool` is `true` exactly when the
non-fatal warning `'pandas ... is not installed'` was printed. -/
def Client.init (engine path : String) (options : PyOpts)
    (dataframe pandasAvailable : Bool) : Except PyError (Client × Bool) :=
  match Client.initBase engine path options with
  | .error e => .error e
  | .ok base =>
    if dataframe then
      if pandasAvailable then .ok ({ base with pandas := true }, false)
      else .ok (base, true)
    else .ok (base, false)

/-- `Client.close` (lines 51-60): `if self.embedded: self.embedded.close()`.
The native `close()` is modelled as incrementing the handle's release
counter; the attribute itself is left untouched, as in the source. -/
def Client.close (c : Client) : Except PyError Client :=
  match c.embedded with
  | none => .error (.attributeError "embedded")
  | some none => .ok c
  | some (some h) =>
    .ok { c with embedded := some (some { h with closeCalls := h.closeCalls + 1 }) }

/-- `Client._headers` (lines 62-65). -/
def Client._headers (c : Client) : Except PyError (List (String × String)) :=
  match c.auth with
  | none => .error (.attributeError "auth")
  | some a => .ok [("x-cozo-auth", a)]

/-- The value `run` returns on success: the raw response dict, or a
`pandas.DataFrame(columns=res['headers'], data=res['rows'])` when the
dataframe capability is active. -/
inductive RunResult where
  | raw (res : JVal) : RunResult
  | frame (headers rows : JVal) : RunResult

/-- `Client._format_return` (lines 77-84). -/
def Client._format_return (c : Client) (res : JVal) : Except PyError RunResult :=
  match res.subscript "ok" with
  | .error e => .error e
  | .ok okv =>
    if okv.truthy = false then .error (.queryException res)
    else if c.pandas then
      match res.subscript "headers" with
      | .error e => .error e
      | .ok hs =>
        match res.subscript "rows" with
        | .error e => .error e
        | .ok rws => .ok (.frame hs rws)
    else .ok (.raw res)

/-- `Client._client_request` (lines 67-75): POST `{self.host}/text-query`
with the auth header and body `{'script': script, 'params': params or \x7b\x7d}`,
then normalize the decoded response.  (Argument evaluation order of the
`requests.post` call: url, headers, json.) -/
def Client._client_request (c : Client) (http : Http) (script : String)
    (params : JVal) : Except PyError RunResult :=
  match c.host with
  | none => .error (.attributeError "host")
  | some host =>
    match c._headers with
    | .error e => .error e
    | .ok hs =>
      let body : JVal := .obj [("script", .str script),
                               ("params", if params.truthy then params else .obj [])]
      let res := http.post (host ++ "/text-query") hs body
      c._format_return res

/-- `Client._embedded_request` (lines 86-92): serialize
`params or \x7b\x7d` to a JSON string, call the native `run_query`, decode and
normalize.  (`params_str` is computed before `self.embedded` is read.) -/
def Client._embedded_request (c : Client) (nativeDb : Native) (script : String)
    (params : JVal) : Except PyError RunResult :=
  let params_str := JVal.dumps (if params.truthy then params else .obj [])
  match c.embedded with
  | none => .error (.attributeError "embedded")
  | some none => .error (.attributeError "run_query")
  | some (some _) =>
    let res := nativeDb.run_query script params_str
    c._format_return res

/-- `Client.run` (lines 94-104): dispatch on `self.embedded is None`. -/
def Client.run (c : Client) (nativeDb : Native) (http : Http) (script : String)
    (params : JVal) : Except PyError RunResult :=
  match c.embedded with
  | none => .error (.attributeError "embedded")
  | some emb =>
    if emb.isNone then c._client_request http script params
    else c._embedded_request nativeDb script params

/-- `urllib.parse.quote_plus` on one UTF-8 byte: space becomes `+`,
unreserved bytes (alphanumeric and `-`/`.`/`_`/`~`) pass through, everything
else becomes `%XX` with uppercase hex. -/
def quoteByte (b : Nat) : String :=
  if b = 32 then "+"
  else if (48 ≤ b && b ≤ 57) || (65 ≤ b && b ≤ 90) || (97 ≤ b && b ≤ 122)
          || b = 45 || b = 46 || b = 95 || b = 126 then
    String.singleton (Char.ofNat b)
  else
    "%" ++ String.singleton (if b / 16 < 10 then Char.ofNat (48 + b / 16)
                             else Char.ofNat (55 + b / 16))
        ++ String.singleton (if b % 16 < 10 then Char.ofNat (48 + b % 16)
                             else Char.ofNat (55 + b % 16))

/-- `urllib.parse.quote_plus`, applied byte-wise to the UTF-8 encoding. -/
def quote_plus (s : String) : String :=
  String.join (s.toUTF8.toList.map (fun b => quoteByte b.toNat))

/-- Embedded branch of `Client.export_relations` (lines 112-118). -/
def Client.export_relations_embedded (nativeDb : Native)
    (relations : List String) : Except PyError JVal :=
  let payload := JVal.dumps (.obj [("relations", .arr (relations.map JVal.str))])
  let res := nativeDb.export_relations payload
  match res.subscript "ok" with
  | .error e => .error e
  | .ok okv =>
    if okv.truthy then res.subscript "data"
    else
      match res.subscript "message" with
      | .error e => .error e
      | .ok m => .error (.runtimeError m)

/-- Remote branch of `Client.export_relations` (lines 119-131): GET
`{self.host}/export/{comma-joined quote_plus names}` with the auth header. -/
def Client.export_relations_remote (c : Client) (http : Http)
    (relations : List String) : Except PyError JVal :=
  let rels := String.intercalate "," (relations.map quote_plus)
  match c.host with
  | none => .error (.attributeError "host")
  | some host =>
    let url := host ++ "/export/" ++ rels
    match c._headers with
    | .error e => .error e
    | .ok hs =>
      let res := http.get url hs
      match res.subscript "ok" with
      | .error e => .error e
      | .ok okv =>
        if okv.truthy then res.subscript "data"
        else
          match res.subscript "message" with
          | .error e => .error e
          | .ok m => .error (.runtimeError m)

/-- `Client.export_relations` (lines 106-131): branch on `if self.embedded`. -/
def Client.export_relations (c : Client) (nativeDb : Native) (http : Http)
    (relations : List String) : Except PyError JVal :=
  match c.embedded with
  | none => .error (.attributeError "embedded")
  | some emb =>
    if emb.isSome then Client.export_relations_embedded nativeDb relations
    else Client.export_relations_remote c http relations

/-- Embedded branch of `Client.import_relations` (lines 139-143). -/
def Client.import_relations_embedded (nativeDb : Native) (data : JVal) :
    Except PyError Unit :=
  let payload := JVal.dumps data
  let res := nativeDb.import_relations payload
  match res.subscript "ok" with
  | .error e => .error e
  | .ok okv =>
    if okv.truthy = false then
      match res.subscript "message" with
      | .error e => .error e
      | .ok m => .error (.runtimeError m)
    else .ok ()

/-- Remote branch of `Client.import_relations` (lines 144-151): PUT the
payload to `{self.host}/import` with the auth header. -/
def Client.import_relations_remote (c : Client) (http : Http) (data : JVal) :
    Except PyError Unit :=
  match c.host with
  | none => .error (.attributeError "host")
  | some host =>
    let url := host ++ "/import"
    match c._headers with
    | .error e => .error e
    | .ok hs =>
      let res := http.put url hs data
      match res.subscript "ok" with
      | .error e => .error e
      | .ok okv =>
        if okv.truthy = false then
          match res.subscript "message" with
          | .error e => .error e
          | .ok m => .error (.runtimeError m)
        else .ok ()

/-- `Client.import_relations` (lines 133-151). -/
def Client.import_relations (c : Client) (nativeDb : Native) (http : Http)
    (data : JVal) : Except PyError Unit :=
  match c.embedded with
  | none => .error (.attributeError "embedded")
  | some emb =>
    if emb.isSome then Client.import_relations_embedded nativeDb data
    else Client.import_relations_remote c http data

/-- Embedded branch of `Client.backup` (lines 158-161): the native `backup`
is called with the path directly. -/
def Client.backup_embedded (nativeDb : Native) (path : String) :
    Except PyError Unit :=
  let res := nativeDb.backup path
  match res.subscript "ok" with
  | .error e => .error e
  | .ok okv =>
    if okv.truthy = false then
      match res.subscript "message" with
      | .error e => .error e
      | .ok m => .error (.runtimeError m)
    else .ok ()

/-- Remote branch of `Client.backup` (lines 162-168): POST
`{self.host}/backup/` with body `{'path': path}`. -/
def Client.backup_remote (c : Client) (http : Http) (path : String) :
    Except PyError Unit :=
  match c.host with
  | none => .error (.attributeError "host")
  | some host =>
    match c._headers with
    | .error e => .error e
    | .ok hs =>
      let res := http.post (host ++ "/backup/") hs (.obj [("path", .str path)])
      match res.subscript "ok" with
      | .error e => .error e
      | .ok okv =>
        if okv.truthy = false then
          match res.subscript "message" with
          | .error e => .error e
          | .ok m => .error (.runtimeError m)
        else .ok ()

/-- `Client.backup` (lines 153-168). -/
def Client.backup (c : Client) (nativeDb : Native) (http : Http)
    (path : String) : Except PyError Unit :=
  match c.embedded with
  | none => .error (.attributeError "embedded")
  | some emb =>
    if emb.isSome then Client.backup_embedded nativeDb path
    else Client.backup_remote c http path

/-- Embedded branch of `Client.restore` (lines 176-179). -/
def Client.restore_embedded (nativeDb : Native) (path : String) :
    Except PyError Unit :=
  let res := nativeDb.restore path
  match res.subscript "ok" with
  | .error e => .error e
  | .ok okv =>
    if okv.truthy = false then
      match res.subscript "message" with
      | .error e => .error e
      | .ok m => .error (.runtimeError m)
    else .ok ()

/-- Remote branch of `Client.restore` (lines 180-181): unconditional
`RuntimeError('Remote databases cannot be restored remotely')`. -/
def Client.restore_remote : Except PyError Unit :=
  .error (.runtimeError (.str "Remote databases cannot be restored remotely"))

/-- `Client.restore` (lines 170-181). -/
def Client.restore (c : Client) (nativeDb : Native) (path : String) :
    Except PyError Unit :=
  match c.embedded with
  | none => .error (.attributeError "embedded")
  | some emb =>
    if emb.isSome then Client.restore_embedded nativeDb path
    else Client.restore_remote

/-- Embedded branch of `Client.import_from_backup` (lines 190-194). -/
def Client.import_from_backup_embedded (nativeDb : Native) (path : String)
    (relations : List String) : Except PyError Unit :=
  let payload := JVal.dumps (.obj [("path", .str path),
                                   ("relations", .arr (relations.map JVal.str))])
  let res := nativeDb.import_from_backup payload
  match res.subscript "ok" with
  | .error e => .error e
  | .ok okv =>
    if okv.truthy = false then
      match res.subscript "message" with
      | .error e => .error e
      | .ok m => .error (.runtimeError m)
    else .ok ()

/-- Remote branch of `Client.import_from_backup` (lines 195-202): POST
`{self.host}/import-from-backup` with body `{'path': path, 'relations': relations}`. -/
def Client.import_from_backup_remote (c : Client) (http : Http) (path : String)
    (relations : List String) : Except PyError Unit :=
  match c.host with
  | none => .error (.attributeError "host")
  | some host =>
    match c._headers with
    | .error e => .error e
    | .ok hs =>
      let body : JVal := .obj [("path", .str path),
                               ("relations", .arr (relations.map JVal.str))]
      let res := http.post (host ++ "/import-from-backup") hs body
      match res.subscript "ok" with
      | .error e => .error e
      | .ok okv =>
        if okv.truthy = false then
          match res.subscript "message" with
          | .error e => .error e
          | .ok m => .error (.runtimeError m)
        else .ok ()

/-- `Client.import_from_backup` (lines 183-202). -/
def Client.import_from_backup (c : Client) (nativeDb : Native) (http : Http)
    (path : String) (relations : List String) : Except PyError Unit :=
  match c.embedded with
  | none => .error (.attributeError "embedded")
  | some emb =>
    if emb.isSome then Client.import_from_backup_embedded nativeDb path relations
    else Client.import_from_backup_remote c http path relations

/-- Subscripting succeeds with the looked-up value whenever `lookup` finds
the key. -/
theorem subscript_of_lookup {res : JVal} {k : String} {v : JVal}
    (h : res.lookup k = some v) : res.subscript k = .ok v := by
  cases res <;> simp only [JVal.lookup] at h <;> first
    | exact absurd h (by simp)
    | simp [JVal.subscript, h]

/-- The handle created by `Client('mem')`: `CozoDbPy('mem', '', '\x7b\x7d')`,
never closed. -/
def hdl0 : EmbHandle :=
  { engine := "mem", path := "", optsJson := "\x7b\x7d", closeCalls := 0 }

/-- A concrete embedded-mode client, as built by `Client('mem')` with the
dataframe capability absent. -/
def cemb : Client :=
  { pandas := false, host := none, auth := none, embedded := some (some hdl0) }

/-- A concrete remote-mode client, as built by
`Client('http', options=<object with host/auth attributes>)` with the
dataframe capability absent.  Note its `embedded` attribute is unassigned. -/
def chttp : Client :=
  { pandas := false, host := some "http://127.0.0.1:9070",
    auth := some "token", embedded := none }

/-- A concrete failing collaborator response. -/
def resBad : JVal :=
  .obj [("ok", .bool false), ("message", .str "query failed"),
        ("display", .str "fancy display")]

/-- C1: the claim says a remote-mode `run` POSTs `{script, params}` to
`{host}/text-query`.  On this source, any `run` on an http-constructed
client instead raises `AttributeError('embedded')` at the
`self.embedded is None` dispatch, since the `'http'` branch of `__init__`
never assigns `self.embedded`; no HTTP request is issued (the result is the
same for every transport oracle). -/
theorem C1_remote_run_attribute_error :
    Client.init "http" "" (.attrObj "http://127.0.0.1:9070" "token") false false
      = .ok (chttp, false)
    ∧ ∀ nativeDb http script params,
        Client.run chttp nativeDb http script params
          = .error (.attributeError "embedded") :=
  ⟨rfl, fun _ _ _ _ => rfl⟩

/-- C2: the claim (and the method's own docstring) says `close()` is a no-op
for remote mode.  On this source it raises `AttributeError('embedded')` at
`if self.embedded:`, because the `'http'` branch of `__init__` never assigns
that attribute. -/
theorem C2_remote_close_attribute_error :
    Client.init "http" "" (.attrObj "http://127.0.0.1:9070" "token") false false
      = .ok (chttp, false)
    ∧ Client.close chttp = .error (.attributeError "embedded") :=
  ⟨rfl, rfl⟩

/-- C3: the claim says construction with engine `'http'` and an options
mapping containing `host` and `auth` stores both fields.  On this source the
constructor reads `options.host` by attribute access, which fails with
`AttributeError('host')` on the documented dict form even though both fields
are present. -/
theorem C3_http_dict_options_attribute_error :
    Client.init "http" ""
      (.dict [("host", .str "http://127.0.0.1:9070"), ("auth", .str "token")])
      true true
      = .error (.attributeError "host") := rfl

/-- C4: the claim says `restore` on a remote-mode client always raises the
UnsupportedOperation error.  On this source it raises
`AttributeError('embedded')` at `if self.embedded:` for every path, and the
`RuntimeError('Remote databases cannot be restored remotely')` branch is
unreachable. -/
theorem C4_remote_restore_attribute_error :
    Client.init "http" "" (.attrObj "http://127.0.0.1:9070" "token") false false
      = .ok (chttp, false)
    ∧ ∀ nativeDb path,
        Client.restore chttp nativeDb path = .error (.attributeError "embedded") :=
  ⟨rfl, fun _ _ => rfl⟩

/-- C7: the claim says a remote-mode `export_relations` GETs
`{host}/export/{percent-encoded, comma-joined names}`.  On this source it
raises `AttributeError('embedded')` at `if self.embedded:` before any
request, for every argument and transport oracle. -/
theorem C7_remote_export_attribute_error :
    Client.init "http" "" (.attrObj "http://127.0.0.1:9070" "token") false false
      = .ok (chttp, false)
    ∧ ∀ nativeDb http relations,
        Client.export_relations chttp nativeDb http relations
          = .error (.attributeError "embedded") :=
  ⟨rfl, fun _ _ _ => rfl⟩

/-- The number of native `close()` invocations recorded on a client's
handle (0 when there is no handle). -/
def closeCallCount (c : Client) : Nat :=
  match c.embedded with
  | some (some h) => h.closeCalls
  | _ => 0

/-- The concrete embedded client `cemb` after `close()` has been called
twice in sequence. -/
def cembAfterTwoCloses : Client :=
  match Client.close cemb with
  | .ok c1 =>
    match Client.close c1 with
    | .ok c2 => c2
    | .error _ => c1
  | .error _ => cemb

/-- C9 counterexample: after two `close()` calls on a fresh embedded client
the native handle has been released twice, not once — `close` leaves
`self.embedded` truthy, so the second call invokes the native `close()`
again. -/
theorem C9_second_close_counterexample :
    closeCallCount cembAfterTwoCloses = 2
    ∧ ¬ closeCallCount cembAfterTwoCloses = 1 :=
  ⟨rfl, by decide⟩

/-- C9 (amended): each `close()` call on an embedded-mode client invokes the
native release once more — after the first call the handle has been released
once, and a second call releases it a second time; close is not idempotent
at this layer. -/
theorem C9_close_releases_per_call (c : Client) (h : EmbHandle)
    (hemb : c.embedded = some (some h)) :
    ∃ c1 c2, Client.close c = .ok c1 ∧ Client.close c1 = .ok c2
      ∧ c1.embedded = some (some { h with closeCalls := h.closeCalls + 1 })
      ∧ c2.embedded = some (some { h with closeCalls := h.closeCalls + 2 }) := by
  refine ⟨{ c with embedded := some (some { h with closeCalls := h.closeCalls + 1 }) },
          { c with embedded := some (some { h with closeCalls := h.closeCalls + 2 }) },
          ?_, ?_, rfl, rfl⟩
  · simp [Client.close, hemb]
  · simp [Client.close]

/-- C9 witness: the amended statement at the concrete client `cemb`. -/
theorem C9_close_releases_per_call_witness :
    ∃ c1 c2, Client.close cemb = .ok c1 ∧ Client.close c1 = .ok c2
      ∧ c1.embedded = some (some { hdl0 with closeCalls := hdl0.closeCalls + 1 })
      ∧ c2.embedded = some (some { hdl0 with closeCalls := hdl0.closeCalls + 2 }) :=
  C9_close_releases_per_call cemb hdl0 rfl

/-- Every client produced by the engine branch of `__init__` has the
dataframe capability still unset (`self.pandas = None` precedes it). -/
theorem initBase_pandas_false (engine path : String) (options : PyOpts)
    (c : Client) (h : Client.initBase engine path options = .ok c) :
    c.pandas = false := by
  unfold Client.initBase at h
  split at h
  · cases hh : options.getattrS "host" with
    | error e => rw [hh] at h; exact absurd h (by simp)
    | ok hv =>
      rw [hh] at h
      cases ha : options.getattrS "auth" with
      | error e => rw [ha] at h; exact absurd h (by simp)
      | ok av =>
        rw [ha] at h
        cases h
        rfl
  · cases hj : (if options.truthy then options else .dict []).toJsonStr with
    | error e => rw [hj] at h; exact absurd h (by simp)
    | ok js =>
      rw [hj] at h
      cases h
      rfl

/-- C8: if a construction succeeds with the dataframe flag off, the same
construction with the dataframe flag on but the pandas capability
unresolvable still succeeds, yields the very same client (whose dataframe
capability is absent), and surfaces the non-fatal warning. -/
theorem C8_pandas_missing_construction_succeeds (engine path : String)
    (options : PyOpts) (c : Client)
    (h : Client.init engine path options false false = .ok (c, false)) :
    Client.init engine path options true false = .ok (c, true)
    ∧ c.pandas = false := by
  unfold Client.init at h ⊢
  cases hb : Client.initBase engine path options with
  | error e => rw [hb] at h; exact absurd h (by simp)
  | ok base =>
    rw [hb] at h
    simp only [if_neg, Bool.false_eq_true, if_false, Except.ok.injEq,
      Prod.mk.injEq, and_true] at h
    subst h
    exact ⟨by simp, initBase_pandas_false engine path options base hb⟩

/-- C8 witness: constructing `Client('mem', dataframe=True)` with pandas
missing still succeeds, warns, and leaves the capability absent. -/
theorem C8_pandas_missing_construction_succeeds_witness :
    Client.init "mem" "" .none_ false false = .ok (cemb, false)
    ∧ Client.init "mem" "" .none_ true false = .ok (cemb, true)
    ∧ cemb.pandas = false := by
  refine ⟨rfl, ?_⟩
  exact C8_pandas_missing_construction_succeeds "mem" "" .none_ cemb rfl

/-- The `'http'` branch of `__init__` leaves the `embedded` attribute
unassigned. -/
theorem initBase_http_embedded_none (path : String) (options : PyOpts)
    (c : Client) (h : Client.initBase "http" path options = .ok c) :
    c.embedded = none := by
  unfold Client.initBase at h
  rw [if_pos rfl] at h
  cases hh : options.getattrS "host" with
  | error e => rw [hh] at h; exact absurd h (by simp)
  | ok hv =>
    rw [hh] at h
    cases ha : options.getattrS "auth" with
    | error e => rw [ha] at h; exact absurd h (by simp)
    | ok av =>
      rw [ha] at h
      cases h
      rfl

/-- C10: a client constructed with engine `'http'` has no `embedded`
attribute, so `run`, `close`, `export_relations`, `import_relations`,
`backup`, `restore` and `import_from_backup` all raise
`AttributeError('embedded')` at their first `self.embedded` check — for
every argument and every transport oracle, i.e. before any HTTP request is
issued. -/
theorem C10_http_client_ops_attribute_error (path : String) (options : PyOpts)
    (df pa : Bool) (c : Client) (w : Bool)
    (hinit : Client.init "http" path options df pa = .ok (c, w)) :
    c.embedded = none
    ∧ (∀ nativeDb http script params,
        Client.run c nativeDb http script params
          = .error (.attributeError "embedded"))
    ∧ Client.close c = .error (.attributeError "embedded")
    ∧ (∀ nativeDb http rels,
        Client.export_relations c nativeDb http rels
          = .error (.attributeError "embedded"))
    ∧ (∀ nativeDb http data,
        Client.import_relations c nativeDb http data
          = .error (.attributeError "embedded"))
    ∧ (∀ nativeDb http p,
        Client.backup c nativeDb http p = .error (.attributeError "embedded"))
    ∧ (∀ nativeDb p,
        Client.restore c nativeDb p = .error (.attributeError "embedded"))
    ∧ (∀ nativeDb http p rels,
        Client.import_from_backup c nativeDb http p rels
          = .error (.attributeError "embedded")) := by
  have hemb : c.embedded = none := by
    unfold Client.init at hinit
    cases hb : Client.initBase "http" path options with
    | error e => rw [hb] at hinit; exact absurd hinit (by simp)
    | ok base =>
      have hbe := initBase_http_embedded_none path options base hb
      rw [hb] at hinit
      cases df <;> cases pa <;> simp only [if_true, if_false,
          Bool.false_eq_true, Except.ok.injEq, Prod.mk.injEq] at hinit <;>
        rcases hinit with ⟨h1, -⟩ <;> rw [← h1] <;> simpa using hbe
  refine ⟨hemb, fun _ _ _ _ => ?_, ?_, fun _ _ _ => ?_, fun _ _ _ => ?_,
      fun _ _ _ => ?_, fun _ _ => ?_, fun _ _ _ _ => ?_⟩ <;>
    simp [Client.run, Client.close, Client.export_relations,
      Client.import_relations, Client.backup, Client.restore,
      Client.import_from_backup, hemb]

/-- C10 witness: the concrete http-constructed client `chttp`. -/
theorem C10_http_client_ops_attribute_error_witness :
    chttp.embedded = none
    ∧ Client.run chttp (constNative .null) (constHttp .null) "?[a] := a = 1" .null
        = .error (.attributeError "embedded")
    ∧ Client.close chttp = .error (.attributeError "embedded")
    ∧ Client.restore chttp (constNative .null) "/tmp/backup.db"
        = .error (.attributeError "embedded") := by
  have h := C10_http_client_ops_attribute_error ""
    (.attrObj "http://127.0.0.1:9070" "token") false false chttp false rfl
  exact ⟨h.1, h.2.1 _ _ _ _, h.2.2.1, h.2.2.2.2.2.2.1 _ _⟩

/-- C5: on an embedded-mode client whose collaborator reply decodes to a
response with a falsy `ok` flag, `run` raises a `QueryException` carrying
the full response; the exception's `__str__` exposes the `message` field and
its `__repr__` the `display` field when they are present (and truthy).  With
a truthy `ok` flag (and, for the wire contract, `headers`/`rows` present)
`run` raises nothing and returns the result. -/
theorem C5_run_error_normalization (c : Client) (hd : EmbHandle) (res v : JVal)
    (hemb : c.embedded = some (some hd))
    (hok : res.lookup "ok" = some v) :
    (v.truthy = false →
      (∀ script params,
          Client.run c (constNative res) (constHttp res) script params
            = .error (.queryException res))
      ∧ (∀ m, res.lookup "message" = some m → m.truthy = true →
            QueryException.pyStr res = m)
      ∧ (∀ d, res.lookup "display" = some d → d.truthy = true →
            QueryException.pyRepr res = d))
    ∧ (v.truthy = true →
        (res.lookup "headers").isSome → (res.lookup "rows").isSome →
        ∀ script params, ∃ r,
          Client.run c (constNative res) (constHttp res) script params
            = .ok r) := by
  constructor
  · intro hv
    refine ⟨?_, ?_, ?_⟩
    · intro script params
      simp [Client.run, hemb, Client._embedded_request, constNative,
        Client._format_return, subscript_of_lookup hok, hv]
    · intro m hm hmt
      simp [QueryException.pyStr, JVal.get, hm, hmt]
    · intro d hd2 hdt
      simp [QueryException.pyRepr, JVal.get, hd2, hdt]
  · intro hv hh hr script params
    obtain ⟨hv2, hh2⟩ := Option.isSome_iff_exists.mp hh
    obtain ⟨rv, hr2⟩ := Option.isSome_iff_exists.mp hr
    cases hp : c.pandas with
    | true =>
      refine ⟨.frame hv2 rv, ?_⟩
      simp [Client.run, hemb, Client._embedded_request, constNative,
        Client._format_return, subscript_of_lookup hok, hv, hp,
        subscript_of_lookup hh2, subscript_of_lookup hr2]
    | false =>
      refine ⟨.raw res, ?_⟩
      simp [Client.run, hemb, Client._embedded_request, constNative,
        Client._format_return, subscript_of_lookup hok, hv, hp]

/-- C5 witness: the concrete failing response `resBad` on the concrete
embedded client `cemb`. -/
theorem C5_run_error_normalization_witness :
    resBad.lookup "ok" = some (.bool false)
    ∧ Client.run cemb (constNative resBad) (constHttp resBad) "?[a] := a = 1" .null
        = .error (.queryException resBad)
    ∧ QueryException.pyStr resBad = .str "query failed"
    ∧ QueryException.pyRepr resBad = .str "fancy display" := by
  have h := (C5_run_error_normalization cemb hdl0 resBad (.bool false)
    rfl rfl).1 rfl
  exact ⟨rfl, h.1 "?[a] := a = 1" .null, h.2.1 _ rfl rfl, h.2.2 _ rfl rfl⟩

/-- C6: every collaborator response, for every public operation and for both
transport branches, goes through the same success/failure normalization: the
`ok` flag is checked and a falsy `ok` leads to a raised error carrying the
response's `message` (`run`'s `QueryException` carries the whole response,
whose exposed message is that field; the other operations' `RuntimeError`
carries the field itself), while a truthy `ok` (with the success payload
present) raises nothing.  `restore` has no remote response to normalize —
its remote branch raises unconditionally. -/
theorem C6_uniform_ok_normalization (res v m : JVal) (hostS authS : String)
    (hok : res.lookup "ok" = some v)
    (hmsg : res.lookup "message" = some m)
    (hmt : m.truthy = true) :
    (v.truthy = false →
      (∀ c hd, c.embedded = some (some hd) → ∀ script params,
          Client.run c (constNative res) (constHttp res) script params
            = .error (.queryException res))
      ∧ (∀ c, c.host = some hostS → c.auth = some authS → ∀ script params,
          Client._client_request c (constHttp res) script params
            = .error (.queryException res))
      ∧ QueryException.pyStr res = m
      ∧ (∀ rels, Client.export_relations_embedded (constNative res) rels
            = .error (.runtimeError m))
      ∧ (∀ c, c.host = some hostS → c.auth = some authS → ∀ rels,
          Client.export_relations_remote c (constHttp res) rels
            = .error (.runtimeError m))
      ∧ (∀ data, Client.import_relations_embedded (constNative res) data
            = .error (.runtimeError m))
      ∧ (∀ c, c.host = some hostS → c.auth = some authS → ∀ data,
          Client.import_relations_remote c (constHttp res) data
            = .error (.runtimeError m))
      ∧ (∀ p, Client.backup_embedded (constNative res) p
            = .error (.runtimeError m))
      ∧ (∀ c, c.host = some hostS → c.auth = some authS → ∀ p,
          Client.backup_remote c (constHttp res) p = .error (.runtimeError m))
      ∧ (∀ p, Client.restore_embedded (constNative res) p
            = .error (.runtimeError m))
      ∧ (∀ p rels, Client.import_from_backup_embedded (constNative res) p rels
            = .error (.runtimeError m))
      ∧ (∀ c, c.host = some hostS → c.auth = some authS → ∀ p rels,
          Client.import_from_backup_remote c (constHttp res) p rels
            = .error (.runtimeError m)))
    ∧ (v.truthy = true →
      ((res.lookup "data").isSome →
        (∀ rels, ∃ d, Client.export_relations_embedded (constNative res) rels
            = .ok d)
        ∧ (∀ c, c.host = some hostS → c.auth = some authS → ∀ rels, ∃ d,
            Client.export_relations_remote c (constHttp res) rels = .ok d))
      ∧ (∀ data, Client.import_relations_embedded (constNative res) data
            = .ok ())
      ∧ (∀ c, c.host = some hostS → c.auth = some authS → ∀ data,
          Client.import_relations_remote c (constHttp res) data = .ok ())
      ∧ (∀ p, Client.backup_embedded (constNative res) p = .ok ())
      ∧ (∀ c, c.host = some hostS → c.auth = some authS → ∀ p,
          Client.backup_remote c (constHttp res) p = .ok ())
      ∧ (∀ p, Client.restore_embedded (constNative res) p = .ok ())
      ∧ (∀ p rels, Client.import_from_backup_embedded (constNative res) p rels
            = .ok ())
      ∧ (∀ c, c.host = some hostS → c.auth = some authS → ∀ p rels,
          Client.import_from_backup_remote c (constHttp res) p rels
            = .ok ())) := by
  have hsok := subscript_of_lookup hok
  have hsmsg := subscript_of_lookup hmsg
  constructor
  · intro hv
    refine ⟨?_, ?_, ?_, ?_, ?_, ?_, ?_, ?_, ?_, ?_, ?_, ?_⟩
    · intro c hd hemb script params
      simp [Client.run, hemb, Client._embedded_request, constNative,
        Client._format_return, hsok, hv]
    · intro c hh ha script params
      simp [Client._client_request, hh, Client._headers, ha, constHttp,
        Client._format_return, hsok, hv]
    · simp only [QueryException.pyStr, JVal.get, hmsg, Option.getD_some, hmt,
        if_true]
    · intro rels
      simp [Client.export_relations_embedded, constNative, hsok, hv, hsmsg]
    · intro c hh ha rels
      simp [Client.export_relations_remote, hh, Client._headers, ha,
        constHttp, hsok, hv, hsmsg]
    · intro data
      simp [Client.import_relations_embedded, constNative, hsok, hv, hsmsg]
    · intro c hh ha data
      simp [Client.import_relations_remote, hh, Client._headers, ha,
        constHttp, hsok, hv, hsmsg]
    · intro p
      simp [Client.backup_embedded, constNative, hsok, hv, hsmsg]
    · intro c hh ha p
      simp [Client.backup_remote, hh, Client._headers, ha, constHttp, hsok,
        hv, hsmsg]
    · intro p
      simp [Client.restore_embedded, constNative, hsok, hv, hsmsg]
    · intro p rels
      simp [Client.import_from_backup_embedded, constNative, hsok, hv, hsmsg]
    · intro c hh ha p rels
      simp [Client.import_from_backup_remote, hh, Client._headers, ha,
        constHttp, hsok, hv, hsmsg]
  · intro hv
    refine ⟨?_, ?_, ?_, ?_, ?_, ?_, ?_, ?_⟩
    · intro hd
      obtain ⟨d, hdata⟩ := Option.isSome_iff_exists.mp hd
      have hsd := subscript_of_lookup hdata
      constructor
      · intro rels
        exact ⟨d, by simp [Client.export_relations_embedded, constNative,
          hsok, hv, hsd]⟩
      · intro c hh ha rels
        exact ⟨d, by simp [Client.export_relations_remote, hh,
          Client._headers, ha, constHttp, hsok, hv, hsd]⟩
    · intro data
      simp [Client.import_relations_embedded, constNative, hsok, hv]
    · intro c hh ha data
      simp [Client.import_relations_remote, hh, Client._headers, ha,
        constHttp, hsok, hv]
    · intro p
      simp [Client.backup_embedded, constNative, hsok, hv]
    · intro c hh ha p
      simp [Client.backup_remote, hh, Client._headers, ha, constHttp, hsok,
        hv]
    · intro p
      simp [Client.restore_embedded, constNative, hsok, hv]
    · intro p rels
      simp [Client.import_from_backup_embedded, constNative, hsok, hv]
    · intro c hh ha p rels
      simp [Client.import_from_backup_remote, hh, Client._headers, ha,
        constHttp, hsok, hv]

/-- C6 witness: the concrete failing response `resBad` normalized the same
way by `run` (embedded and remote request paths) and by the embedded and
remote branches of the bulk operations. -/
theorem C6_uniform_ok_normalization_witness :
    Client.run cemb (constNative resBad) (constHttp resBad) "?[x] := x = 1" .null
        = .error (.queryException resBad)
    ∧ Client._client_request chttp (constHttp resBad) "?[x] := x = 1" .null
        = .error (.queryException resBad)
    ∧ QueryException.pyStr resBad = .str "query failed"
    ∧ Client.export_relations_embedded (constNative resBad) ["rel"]
        = .error (.runtimeError (.str "query failed"))
    ∧ Client.export_relations_remote chttp (constHttp resBad) ["rel"]
        = .error (.runtimeError (.str "query failed"))
    ∧ Client.backup_embedded (constNative resBad) "/tmp/backup.db"
        = .error (.runtimeError (.str "query failed"))
    ∧ Client.restore_embedded (constNative resBad) "/tmp/backup.db"
        = .error (.runtimeError (.str "query failed")) := by
  have h := (C6_uniform_ok_normalization resBad (.bool false)
    (.str "query failed") "http://127.0.0.1:9070" "token" rfl rfl rfl).1 rfl
  exact ⟨h.1 cemb hdl0 rfl _ _, h.2.1 chttp rfl rfl _ _, h.2.2.1,
    h.2.2.2.1 _, h.2.2.2.2.1 chttp rfl rfl _, h.2.2.2.2.2.2.2.1 _,
    h.2.2.2.2.2.2.2.2.2.1 _⟩
